import Mathlib

/- Verification development for the Travel Planner Voice Agent.

   The TypeScript frontends (frontend/ and voice-frontend/) are shallowly
   embedded below as pure Lean functions over explicit state. Backend
   components that are documented but whose sources are not available are
   modelled from the specification and say so in their doc comments.
   Coordinates, which the source stores as floating point numbers, are
   modelled as integers scaled by ten thousand; times are minutes from
   midnight. JavaScript strings become Lean strings (or lists of
   characters where character-level reasoning is needed), null/undefined
   becomes Option, and a thrown exception becomes an explicit outcome. -/

namespace TravelPlanner

namespace VoiceFrontend

/-- Message roles of the voice transcript, from voice-frontend/src/types.ts
(the optional wall-clock timestamp is omitted). -/
inductive MsgType where
  | user
  | assistant
deriving DecidableEq, Repr

/-- TranscriptMessage from voice-frontend/src/types.ts. -/
structure TranscriptMessage where
  type : MsgType
  text : String
deriving DecidableEq, Repr

/-- Location payload of an Activity, from voice-frontend/src/types.ts. -/
structure VLocation where
  lat : Option Int := none
  lng : Option Int := none
  address : Option String := none
deriving DecidableEq, Repr

/-- Activity from voice-frontend/src/types.ts. -/
structure Activity where
  id : String
  name : String
  start_time : String
  end_time : String
  duration_minutes : Nat
  category : Option String := none
  location : Option VLocation := none
deriving DecidableEq, Repr

/-- DayItinerary from voice-frontend/src/types.ts. -/
structure DayItinerary where
  date : Option String := none
  morning : List Activity
  afternoon : List Activity
  evening : List Activity
deriving DecidableEq, Repr

/-- Itinerary from voice-frontend/src/types.ts: it has exactly the three
optional day slots day_1, day_2, day_3. -/
structure Itinerary where
  day_1 : Option DayItinerary := none
  day_2 : Option DayItinerary := none
  day_3 : Option DayItinerary := none
deriving DecidableEq, Repr

/-- Source from voice-frontend/src/types.ts. -/
structure Source where
  id : String
  name : String
  type : String
  url : Option String := none
deriving DecidableEq, Repr

/-- Number of day slots an Itinerary value actually populates. -/
def numDays (it : Itinerary) : Nat :=
  (if it.day_1.isSome then 1 else 0) +
    (if it.day_2.isSome then 1 else 0) +
    (if it.day_3.isSome then 1 else 0)

/-- getAvailableDays from voice-frontend/src/App.tsx: collects the day
numbers whose slot is present, defaulting to [1, 2, 3] when there is no
itinerary or no slot is present. -/
def getAvailableDays (itinerary : Option Itinerary) : List Nat :=
  match itinerary with
  | none => [1, 2, 3]
  | some it =>
      let days : List Nat :=
        (if it.day_1.isSome then [1] else []) ++
          (if it.day_2.isSome then [2] else []) ++
          (if it.day_3.isSome then [3] else [])
      if days.length > 0 then days else [1, 2, 3]

/-- A day with no scheduled activities. -/
def emptyDay : DayItinerary :=
  { morning := [], afternoon := [], evening := [] }

/-- The fullest Itinerary the voice-frontend type can represent: all three
day slots populated. -/
def fullItinerary : Itinerary :=
  { day_1 := some emptyDay, day_2 := some emptyDay, day_3 := some emptyDay }

/-- React state of the voice App component (voice-frontend/src/App.tsx)
that a turn can mutate: transcript, itinerary, sources and session id.
The purely presentational flags (isListening, isProcessing) are omitted. -/
structure AppState where
  transcript : List TranscriptMessage
  itinerary : Option Itinerary
  sources : List Source
  sessionId : Option String
deriving DecidableEq, Repr

/-- Decoded result of sendVoiceMessage as consumed by App.tsx (the audio
blob is opaque to the state update and omitted). -/
structure VoiceResponse where
  sessionId : String
  transcribedText : String
  aiResponse : String
  sources : List Source
deriving DecidableEq, Repr

/-- Body of a GET /api/trip/session/{id} response, as read by
loadItinerary and loadSources in App.tsx. -/
structure SessionData where
  current_itinerary : Option Itinerary := none
  sources : List Source := []
deriving DecidableEq, Repr

/-- Environment of one stop-and-process turn of handleToggleListening:
either the recording/backend call threw, or it produced a response, in
which case the two follow-up session fetches (loadItinerary, then
loadSources) each either returned data or failed (none). -/
inductive TurnOutcome where
  | failure
  | success (resp : VoiceResponse) (fetchItin : Option SessionData)
      (fetchSrcs : Option SessionData)
deriving DecidableEq, Repr

/-- The fixed apology text appended to the transcript by the catch branch
of handleToggleListening in voice-frontend/src/App.tsx. -/
def apologyText : String :=
  "Sorry, I encountered an error processing your request. Please try again."

/-- State update performed by the isListening branch of
handleToggleListening in voice-frontend/src/App.tsx: stop recording, send
the audio, and fold the response into the component state; on a thrown
error only the fixed apology is appended. The two follow-up fetches read
the session id captured by the render closure, which is the session id
from before the turn. -/
def handleVoiceTurnStop (s0 : AppState) (outcome : TurnOutcome) : AppState :=
  match outcome with
  | .failure =>
      { s0 with transcript :=
          s0.transcript ++ [{ type := .assistant, text := apologyText }] }
  | .success resp fetchItin fetchSrcs =>
      let s1 := if resp.sessionId ≠ "" then
          { s0 with sessionId := some resp.sessionId } else s0
      let s2 := if resp.sources ≠ [] then
          { s1 with sources := resp.sources } else s1
      let s3 := if resp.transcribedText ≠ "" then
          { s2 with transcript := s2.transcript ++
              [{ type := .user, text := resp.transcribedText }] } else s2
      let s4 := if resp.aiResponse ≠ "" then
          { s3 with transcript := s3.transcript ++
              [{ type := .assistant, text := resp.aiResponse }] } else s3
      let s5 := match s0.sessionId, fetchItin with
        | some _, some data =>
            match data.current_itinerary with
            | some it => { s4 with itinerary := some it }
            | none => s4
        | _, _ => s4
      if resp.sources = [] then
        match s0.sessionId, fetchSrcs with
        | some _, some data =>
            if data.sources ≠ [] then { s5 with sources := data.sources } else s5
        | _, _ => s5
      else s5

end VoiceFrontend

namespace Api

/-- Truthiness of a JavaScript string-or-null value: null and the empty
string are falsy. -/
def jsTruthy : Option String → Bool
  | none => false
  | some s => s ≠ ""

/-- Session id computation of sendVoiceMessage in
voice-frontend/src/utils/api.ts: the expression
headers.get of X-Session-Id, or-else sessionId, or-else the empty string,
under JavaScript truthiness. -/
def newSessionId (headerSessionId : Option String) (sessionId : Option String) : String :=
  if jsTruthy headerSessionId then headerSessionId.getD ""
  else if jsTruthy sessionId then sessionId.getD ""
  else ""

/-- Response headers read by sendVoiceMessage; none models an absent
header (headers.get returning null). -/
structure VoiceChatHeaders where
  xSessionId : Option String := none
  xEncoding : Option String := none
  xTranscribedText : Option String := none
  xAiResponse : Option String := none
  xSources : Option String := none
deriving DecidableEq, Repr

/-- Result record returned by sendVoiceMessage (the audio blob is opaque
and omitted). -/
structure VoiceResult where
  sessionId : String
  transcribedText : String
  aiResponse : String
  sources : List VoiceFrontend.Source
deriving DecidableEq, Repr

/-- Header decoding of sendVoiceMessage in
voice-frontend/src/utils/api.ts. The browser builtins atob and JSON.parse
are external collaborators and are passed in as parameters; a none result
models a thrown exception. The outer try/catch keeps the values assigned
so far when a decode throws, and the inner try/catch around the sources
decode keeps sources empty on its own failure. -/
def decodeVoiceResponse (atob : String → Option String)
    (parseSources : String → Option (List VoiceFrontend.Source))
    (h : VoiceChatHeaders) (sessionId : Option String) : VoiceResult :=
  let sid := newSessionId h.xSessionId sessionId
  let t0 := h.xTranscribedText.getD ""
  let a0 := h.xAiResponse.getD ""
  if h.xEncoding = some ("base64") then
    match (if t0 ≠ "" then atob t0 else some t0) with
    | none =>
        { sessionId := sid, transcribedText := t0, aiResponse := a0, sources := [] }
    | some t1 =>
        match (if a0 ≠ "" then atob a0 else some a0) with
        | none =>
            { sessionId := sid, transcribedText := t1, aiResponse := a0, sources := [] }
        | some a1 =>
            let sources :=
              match h.xSources with
              | none => []
              | some enc =>
                  match atob enc with
                  | none => []
                  | some json => (parseSources json).getD []
            { sessionId := sid, transcribedText := t1, aiResponse := a1,
              sources := sources }
  else
    { sessionId := sid, transcribedText := t0, aiResponse := a0, sources := [] }

end Api

namespace Recorder

/-- State attribute of a browser MediaRecorder object. -/
inductive MRState where
  | recording
  | inactive
deriving DecidableEq, Repr

/-- Fields of the VoiceRecorder class in
voice-frontend/src/utils/voiceRecorder.ts. Streams are identified by a
number; stoppedTracks records the streams whose tracks were stopped
(released) by cleanup. -/
structure RecorderState where
  mediaRecorder : Option MRState
  stream : Option Nat
  audioChunks : Nat
  stoppedTracks : List Nat
deriving DecidableEq, Repr

/-- A freshly constructed VoiceRecorder. -/
def initial : RecorderState :=
  { mediaRecorder := none, stream := none, audioChunks := 0, stoppedTracks := [] }

/-- Environment of one startRecording call: getUserMedia may reject, the
MediaRecorder constructor may throw after the stream was assigned, or
both may succeed. -/
inductive StartEnv where
  | gumFails
  | ctorThrows (streamId : Nat)
  | ok (streamId : Nat)
deriving DecidableEq, Repr

/-- Whether a call resolved or threw. -/
inductive CallResult where
  | resolved
  | threw
deriving DecidableEq, Repr

/-- startRecording from voiceRecorder.ts: on success the stream is stored,
chunks are reset and a recording MediaRecorder is stored; if the
constructor throws, the already assigned stream is kept and the error is
rethrown. -/
def startRecording (s : RecorderState) (env : StartEnv) :
    RecorderState × CallResult :=
  match env with
  | .gumFails => (s, .threw)
  | .ctorThrows sid => ({ s with stream := some sid }, .threw)
  | .ok sid =>
      ({ s with
          stream := some sid,
          mediaRecorder := some MRState.recording,
          audioChunks := 0 }, .resolved)

/-- Private cleanup of voiceRecorder.ts: stop and drop the stream tracks,
then null the recorder reference. -/
def cleanup (s : RecorderState) : RecorderState :=
  let s1 := match s.stream with
    | some sid =>
        { s with stream := none, stoppedTracks := s.stoppedTracks ++ [sid] }
    | none => s
  { s1 with mediaRecorder := none }

/-- Which MediaRecorder event settles the stopRecording promise. -/
inductive StopEnv where
  | onstopFires
  | onerrorFires
deriving DecidableEq, Repr

/-- stopRecording from voiceRecorder.ts: with no recorder the promise is
rejected without any cleanup; otherwise stop() is requested and either
the onstop handler cleans up and resolves with the blob, or the onerror
handler cleans up and rejects. -/
def stopRecording (s : RecorderState) (env : StopEnv) :
    RecorderState × CallResult :=
  match s.mediaRecorder with
  | none => (s, .threw)
  | some _ =>
      match env with
      | .onstopFires => (cleanup s, .resolved)
      | .onerrorFires => (cleanup s, .threw)

/-- isRecording from voiceRecorder.ts. -/
def isRecording (s : RecorderState) : Bool :=
  s.mediaRecorder = some MRState.recording

/-- cancelRecording from voiceRecorder.ts: stop() is requested when still
recording, and cleanup always runs. -/
def cancelRecording (s : RecorderState) : RecorderState :=
  cleanup s

/-- Idle shape the recorder is expected to return to: not recording, no
held stream, no recorder reference. -/
def idle (s : RecorderState) : Prop :=
  isRecording s = false ∧ s.stream = none ∧ s.mediaRecorder = none

end Recorder

namespace ChatFrontend

/-- Message roles of the chat transcript (frontend/src). -/
inductive Role where
  | user
  | assistant
deriving DecidableEq, Repr

/-- Chat message (frontend/src); the wall-clock timestamp is omitted. -/
structure Message where
  role : Role
  content : String
deriving DecidableEq, Repr

/-- Coordinates of an activity, scaled by ten thousand (the source uses
floating point degrees). -/
structure Location where
  lat : Int
  lon : Int
deriving DecidableEq, Repr

/-- Activity shape consumed by frontend/src (see mockData.ts and
ItineraryDisplay): travel_from_previous is the minutes of travel from the
previous activity of the day, undefined on data that carries none. -/
structure Activity where
  activity_id : String
  name : String
  start_time : String
  end_time : String
  duration_minutes : Nat
  travel_from_previous : Option Int := none
  category : Option String := none
  type : Option String := none
  description : Option String := none
  location : Option Location := none
deriving DecidableEq, Repr

/-- Day of an itinerary: three ordered activity lists. -/
structure DayItinerary where
  date : Option String := none
  morning : List Activity
  afternoon : List Activity
  evening : List Activity
deriving DecidableEq, Repr

/-- Itinerary shape of frontend/src: three optional day slots. -/
structure Itinerary where
  day_1 : Option DayItinerary := none
  day_2 : Option DayItinerary := none
  day_3 : Option DayItinerary := none
deriving DecidableEq, Repr

/-- Source record of frontend/src/mockData.ts (the section label field of
the source is named sectionLabel here because of the Lean keyword). -/
structure Source where
  url : String
  source : String
  sectionLabel : Option String := none
  activities : List String := []
deriving DecidableEq, Repr

/-- ApiResponse consumed by sendMessage in frontend/src/App.tsx. An
absent field is none; note that a present-but-empty sources array is
still truthy in JavaScript and so is modelled as some of the empty
list. -/
structure ApiResponse where
  status : String
  response : String
  session_id : String
  itinerary : Option Itinerary := none
  sources : Option (List Source) := none
  error : Option String := none
deriving DecidableEq, Repr

/-- React state of the chat App component that sendMessage mutates. -/
structure ChatState where
  messages : List Message
  itinerary : Option Itinerary
  sources : List Source
  sessionId : Option String
deriving DecidableEq, Repr

/-- Outcome of the fetch to /api/trip/chat: a thrown error (network or
non-ok status) with its message, or a parsed body. -/
inductive FetchOutcome where
  | fail (message : String)
  | ok (data : ApiResponse)
deriving DecidableEq, Repr

/-- Error message composed by the catch branch of sendMessage (mock mode
off). -/
def chatErrorText (e : String) : String :=
  "Error: " ++ e ++ ". You can enable mock data mode to test the UI."

/-- State update of sendMessage in frontend/src/App.tsx (real backend
mode): append the user message; on success append the reply, replace the
itinerary wholesale when the response carries one (the JSON deep clone is
the identity on structural values), replace sources when the field is
present, and store a truthy session id; a non-success status throws into
the catch branch, which only appends an error message. -/
def sendMessageUpdate (s0 : ChatState) (content : String) (r : FetchOutcome) :
    ChatState :=
  let s1 : ChatState := { s0 with messages :=
      s0.messages ++ [({ role := .user, content := content } : Message)] }
  match r with
  | .fail e =>
      { s1 with messages := s1.messages ++
          [({ role := .assistant, content := chatErrorText e } : Message)] }
  | .ok data =>
      if data.status = "success" then
        let s2 : ChatState := { s1 with messages := s1.messages ++
            [({ role := .assistant, content := data.response } : Message)] }
        let s3 : ChatState := match data.itinerary with
          | some it => { s2 with itinerary := some it }
          | none => s2
        let s4 : ChatState := match data.sources with
          | some src => { s3 with sources := src }
          | none => s3
        if data.session_id ≠ "" then
          { s4 with sessionId := some data.session_id }
        else s4
      else
        { s1 with messages := s1.messages ++
          [({ role := .assistant,
              content := chatErrorText ((data.error).getD "Unknown error occurred") } :
            Message)] }

/-- Time slots of a day as rendered by ItineraryDisplay. -/
inductive TimeSlot where
  | morning
  | afternoon
  | evening
deriving DecidableEq, Repr

/-- Activities of a given slot. -/
def slotActivities (d : DayItinerary) : TimeSlot → List Activity
  | .morning => d.morning
  | .afternoon => d.afternoon
  | .evening => d.evening

/-- showTravelTime from renderActivityCard in ItineraryDisplay
(frontend/src): a travel badge may be shown unless the activity is first
in its slot and no earlier slot of the same day has activities. -/
def showTravelTime (d : DayItinerary) (slot : TimeSlot) (index : Nat) : Bool :=
  (index ≠ 0) ||
    (slot = TimeSlot.afternoon && d.morning.length > 0) ||
    (slot = TimeSlot.evening &&
      (d.afternoon.length > 0 || d.morning.length > 0))

/-- Travel badge rendered above an activity card by renderActivityCard:
present exactly when showTravelTime holds and the activity carries a
defined, strictly positive travel_from_previous; its value is that
field. -/
def renderedTravel (d : DayItinerary) (slot : TimeSlot) (index : Nat)
    (a : Activity) : Option Int :=
  if showTravelTime d slot index then
    match a.travel_from_previous with
    | some t => if 0 < t then some t else none
    | none => none
  else none

/-- Position (slot, index) of the first activity of the day in rendering
order morning, afternoon, evening. -/
def isFirstOfDay (d : DayItinerary) (slot : TimeSlot) (index : Nat) : Prop :=
  index = 0 ∧
    match slot with
    | .morning => True
    | .afternoon => d.morning = []
    | .evening => d.morning = [] ∧ d.afternoon = []

/-- Travel values attached to the activities of an itinerary, in day and
slot order (undefined fields skipped). -/
def allTravelValues (it : Itinerary) : List Int :=
  let ofDay := fun (d : Option DayItinerary) =>
    match d with
    | some d =>
        (d.morning ++ d.afternoon ++ d.evening).filterMap
          (fun a => a.travel_from_previous)
    | none => []
  ofDay it.day_1 ++ ofDay it.day_2 ++ ofDay it.day_3

/-- mockItinerary from frontend/src/mockData.ts (descriptions shortened
to the activity data the invariants concern; coordinates scaled by ten
thousand). -/
def mockItinerary : Itinerary :=
  { day_1 := some
      { date := some ("2024-01-15"),
        morning :=
          [{ activity_id := "osm_12345", name := "Amber Fort",
             start_time := "09:00", end_time := "12:00",
             duration_minutes := 180, travel_from_previous := some 0,
             category := some ("cultural"), type := some ("History"),
             location := some { lat := 269855, lon := 758513 } }],
        afternoon :=
          [{ activity_id := "osm_12346", name := "Jal Mahal",
             start_time := "14:00", end_time := "15:30",
             duration_minutes := 90, travel_from_previous := some 30,
             category := some ("sightseeing"), type := some ("Sightseeing"),
             location := some { lat := 269535, lon := 758465 } }],
        evening :=
          [{ activity_id := "osm_12347", name := "Chokhi Dhani",
             start_time := "18:00", end_time := "21:00",
             duration_minutes := 180, travel_from_previous := some 20,
             category := some ("food"), type := some ("Cultural Experience"),
             location := some { lat := 269124, lon := 757873 } }] },
    day_2 := some
      { date := some ("2024-01-16"),
        morning :=
          [{ activity_id := "osm_12348", name := "City Palace",
             start_time := "09:30", end_time := "12:00",
             duration_minutes := 150, travel_from_previous := some 0,
             category := some ("cultural"), type := some ("History"),
             location := some { lat := 269258, lon := 758236 } }],
        afternoon :=
          [{ activity_id := "osm_12349", name := "Jantar Mantar",
             start_time := "14:00", end_time := "15:30",
             duration_minutes := 90, travel_from_previous := some 5,
             category := some ("cultural"), type := some ("History"),
             location := some { lat := 269247, lon := 758246 } }],
        evening := [] },
    day_3 := none }

/-- Small concrete day for evaluating the chat state update. -/
def sampleDay : DayItinerary :=
  { morning := [], afternoon := [], evening := [] }

/-- Small concrete successful response carrying an itinerary. -/
def sampleResponse : ApiResponse :=
  { status := "success", response := "ok", session_id := "s1",
    itinerary := some { day_1 := some sampleDay } }

end ChatFrontend

namespace Builder

/-- Point of interest as returned by the POI search tool. Modelled from
the spec: the backend sources (backend/tools/poi_search.py) are not in
the available tree; the fields follow section 3 of the spec and the tool
documentation. Coordinates are scaled integers. -/
structure POI where
  id : String
  name : String
  lat : Int
  lon : Int
  category : String
  visit_duration_minutes : Nat
  distance_km : Nat
deriving DecidableEq, Repr

/-- Pace setting of the builder. -/
inductive Pace where
  | relaxed
  | moderate
  | packed
deriving DecidableEq, Repr

/-- Minimum activities per day for a pace (relaxed 2, moderate 3,
packed 4), per section 4.4 of the spec. -/
def paceMin : Pace → Nat
  | .relaxed => 2
  | .moderate => 3
  | .packed => 4

/-- Maximum activities per day for a pace (relaxed 3, moderate 4,
packed 5), per section 4.4 of the spec. -/
def paceMax : Pace → Nat
  | .relaxed => 3
  | .moderate => 4
  | .packed => 5

/-- Scheduled activity of a built itinerary: POI reference, computed
start and end time (minutes from midnight), travel time from the
previous activity of the day. -/
structure ScheduledActivity where
  poi : POI
  start_time : Nat
  end_time : Nat
  travel_from_previous : Nat
deriving DecidableEq, Repr

/-- One Day entry of a built itinerary. -/
structure BuiltDay where
  day : Nat
  activities : List ScheduledActivity
deriving DecidableEq, Repr

/-- Built itinerary: the ordered sequence of Day entries. -/
structure BuiltItinerary where
  days : List BuiltDay
deriving DecidableEq, Repr

/-- Failure modes of the builder per the spec. -/
inductive BuildError where
  | invalidDuration
  | insufficientCandidates
deriving DecidableEq, Repr

/-- Travel-time heuristic between two POIs. Modelled from the spec:
distance over an assumed average speed plus a fixed buffer; grid distance
on the scaled coordinates stands in for the great-circle distance. -/
def travelMinutes (a b : POI) : Nat :=
  10 + ((a.lat - b.lat).natAbs + (a.lon - b.lon).natAbs) / 2000

/-- Total estimated visit duration of a day bucket. -/
def dayLoad (acts : List POI) : Nat :=
  (acts.map (fun p => p.visit_duration_minutes)).sum

/-- Stable insertion by descending visit duration: an element is placed
after every already present element of equal or larger duration, so ties
keep the input order, per the determinism note of section 4.4. -/
def insertByDuration (x : POI) : List POI → List POI
  | [] => [x]
  | y :: ys =>
      if x.visit_duration_minutes ≤ y.visit_duration_minutes then
        y :: insertByDuration x ys
      else x :: y :: ys

/-- Stable sort of the candidates by descending visit duration. -/
def sortByDuration (pois : List POI) : List POI :=
  pois.foldl (fun acc p => insertByDuration p acc) []

/-- Greedy bin-packing target: the day bucket of least load that is
still below the pace cap, earliest day winning ties. -/
def bestDay (buckets : List (List POI)) (cap : Nat) : Option Nat :=
  (buckets.enum.filter (fun p => p.2.length < cap)).foldl
    (fun best p =>
      match best with
      | none => some p
      | some q => if dayLoad p.2 < dayLoad q.2 then some p else some q)
    none |>.map (fun p => p.1)

/-- Distribute the sorted candidates over the day buckets greedily;
candidates beyond the pace caps are dropped. -/
def assignAll (pois : List POI) (cap : Nat) (buckets : List (List POI)) :
    List (List POI) :=
  pois.foldl
    (fun bs poi =>
      match bestDay bs cap with
      | some i => bs.set i (bs.getD i [] ++ [poi])
      | none => bs)
    buckets

/-- Schedule the activities of one day sequentially from the nominal
start, accumulating visit duration and travel time. -/
def scheduleFrom : Nat → Option POI → List POI → List ScheduledActivity
  | _, _, [] => []
  | t, prev, p :: ps =>
      let travel := match prev with
        | none => 0
        | some q => travelMinutes q p
      let s := t + travel
      let e := s + p.visit_duration_minutes
      { poi := p, start_time := s, end_time := e,
        travel_from_previous := travel } :: scheduleFrom e (some p) ps

/-- Builder contract of section 4.4. Modelled from the spec: the backend
itinerary builder (backend/tools/itinerary_builder.py) is not in the
available tree. duration_days must lie in 1..7; with fewer candidates
than the days demand at the minimum pace density the build fails;
otherwise the candidates are stably ordered by estimated duration,
greedily packed into duration_days buckets and scheduled sequentially
from start_time. -/
def build (candidate_pois : List POI) (duration_days : Nat) (pace : Pace)
    (start_time : Nat) : Except BuildError BuiltItinerary :=
  if 1 ≤ duration_days ∧ duration_days ≤ 7 then
    if candidate_pois.length < duration_days * paceMin pace then
      .error .insufficientCandidates
    else
      let sorted := sortByDuration candidate_pois
      let buckets := assignAll sorted (paceMax pace)
        (List.replicate duration_days [])
      let mkDay := fun (i : Nat) =>
        { day := i + 1,
          activities := scheduleFrom start_time none (buckets.getD i []) : BuiltDay }
      .ok { days := (List.range duration_days).map mkDay }
  else .error .invalidDuration

/-- Small concrete candidate list for evaluating the builder. -/
def samplePOIs : List POI :=
  [{ id := "osm_1", name := "Amber Fort", lat := 269855, lon := 758513,
     category := "historic", visit_duration_minutes := 180, distance_km := 11 },
   { id := "osm_2", name := "Jal Mahal", lat := 269535, lon := 758465,
     category := "tourism", visit_duration_minutes := 90, distance_km := 6 },
   { id := "osm_3", name := "City Palace", lat := 269258, lon := 758236,
     category := "historic", visit_duration_minutes := 150, distance_km := 1 },
   { id := "osm_4", name := "Jantar Mantar", lat := 269247, lon := 758246,
     category := "tourism", visit_duration_minutes := 90, distance_km := 1 }]

end Builder

namespace SessionModel

/-- Citation record of a session, per section 3 of the spec (the section
label field is named sectionLabel because of the Lean keyword). -/
structure Citation where
  url : String
  source : String
  sectionLabel : Option String := none
  activities : List String := []
deriving DecidableEq, Repr

/-- Citation accumulation of the Orchestrator. Modelled from the spec:
the backend session store is not in the available tree; per sections 3
and 4.1 new citations are appended in order and a citation whose URL is
already present is dropped. -/
def appendCitations (existing newOnes : List Citation) : List Citation :=
  newOnes.foldl
    (fun acc c => if acc.any (fun d => d.url == c.url) then acc else acc ++ [c])
    existing

/-- No two entries of the list share a URL. -/
def urlsDistinct (l : List Citation) : Prop :=
  l.Pairwise (fun a b => a.url ≠ b.url)

end SessionModel

namespace Fmt

/-- Newline character. -/
def nl : Char := '\n'

/-- Whitespace for the purposes of JavaScript trim and the backslash-s
character class (ASCII portion). -/
def isJsWS (c : Char) : Bool :=
  c == ' ' || c == '\t' || c == '\n' || c == '\r' ||
    c == Char.ofNat 11 || c == Char.ofNat 12

/-- Drop trailing whitespace. -/
def dropTrailingWS (l : List Char) : List Char :=
  (l.reverse.dropWhile isJsWS).reverse

/-- JavaScript String.prototype.trim on a character list. -/
def jsTrim (l : List Char) : List Char :=
  dropTrailingWS (l.dropWhile isJsWS)

/-- Split on newlines, as text.split of a newline does. -/
def splitOnNl : List Char → List (List Char)
  | [] => [[]]
  | c :: cs =>
      if c = nl then [] :: splitOnNl cs
      else
        match splitOnNl cs with
        | t :: ts => (c :: t) :: ts
        | [] => [[c]]

/-- Join with newlines, as lines.join of a newline does. -/
def joinNl (ls : List (List Char)) : List Char :=
  List.intercalate [nl] ls

/-- Case-insensitive comparison of a pattern with the head of a list. -/
def ciStartsWith : List Char → List Char → Bool
  | [], _ => true
  | _ :: _, [] => false
  | p :: ps, c :: cs => (c.toLower == p.toLower) && ciStartsWith ps cs

/-- Case-insensitive literal keyword at the head: returns the matched
characters (original case) and the remainder. -/
def matchKeyword (w : List Char) (l : List Char) : Option (List Char × List Char) :=
  if ciStartsWith w l then some (l.take w.length, l.drop w.length) else none

/-- Consume an optional colon or period and then any whitespace; this is
the tail of the day and period header patterns. -/
def afterLabel (r : List Char) : List Char :=
  let r1 := match r with
    | c :: t => if c == ':' || c == '.' then t else c :: t
    | [] => []
  r1.dropWhile isJsWS

/-- Day header pattern of formatMessage: the word Day (any case), some
whitespace, digits, an optional colon or period, whitespace, rest.
Returns the matched day label and the rest of the line. -/
def matchDay (l : List Char) : Option (List Char × List Char) :=
  match l with
  | d :: a :: y :: rest =>
      if d.toLower == 'd' && a.toLower == 'a' && y.toLower == 'y' then
        let ws := rest.takeWhile isJsWS
        let r1 := rest.dropWhile isJsWS
        if ws.isEmpty then none
        else
          let ds := r1.takeWhile (fun c => c.isDigit)
          let r2 := r1.dropWhile (fun c => c.isDigit)
          if ds.isEmpty then none
          else some (d :: a :: y :: (ws ++ ds), afterLabel r2)
      else none
  | _ => none

/-- Period keywords of formatMessage, in the alternation order of the
source pattern. -/
def periodWords : List (List Char) :=
  [("Morning").toList, ("Afternoon").toList, ("Evening").toList,
    ("Night").toList]

/-- First keyword of the list matching at the head. -/
def firstMatch (ws : List (List Char)) (l : List Char) :
    Option (List Char × List Char) :=
  match ws with
  | [] => none
  | w :: rest =>
      match matchKeyword w l with
      | some r => some r
      | none => firstMatch rest l

/-- Period header pattern of formatMessage. -/
def matchPeriod (l : List Char) : Option (List Char × List Char) :=
  (firstMatch periodWords l).map (fun p => (p.1, afterLabel p.2))

/-- Activity verbs of formatMessage, in the alternation order of the
source pattern. -/
def verbWords : List (List Char) :=
  [("Visit").toList, ("Explore").toList, ("Enjoy").toList, ("See").toList,
    ("Tour").toList, ("Go to").toList, ("Check out").toList]

/-- First activity verb matching at the head. -/
def matchVerb (l : List Char) : Option (List Char × List Char) :=
  firstMatch verbWords l

/-- Length of an activity separator at the head of the list: the word
and, or a comma, followed by whitespace, with an activity verb right
after (the lookahead of the split pattern). -/
def sepLen (l : List Char) : Option Nat :=
  let tryAfter := fun (k : Nat) =>
    let rest := l.drop k
    let ws := rest.takeWhile isJsWS
    if ws.isEmpty then none
    else if (matchVerb (rest.dropWhile isJsWS)).isSome then some (k + ws.length)
    else none
  if ciStartsWith (("and").toList) l then tryAfter 3
  else if l.head? == some ',' then tryAfter 1
  else none

/-- Fuelled splitter on the activity separators; the fuel is an upper
bound on the characters consumed, each step consumes at least one. -/
def splitActs : Nat → List Char → List Char → List (List Char)
  | 0, cur, l => [cur.reverse ++ l]
  | _ + 1, cur, [] => [cur.reverse]
  | fuel + 1, cur, c :: cs =>
      match sepLen (c :: cs) with
      | some n => cur.reverse :: splitActs fuel [] ((c :: cs).drop n)
      | none => splitActs fuel (c :: cur) cs

/-- Split of the period remainder into activities. -/
def splitActivities (l : List Char) : List (List Char) :=
  splitActs (l.length + 1) [] l

/-- Parenthesised time range at the head: an opening parenthesis, at
least one character other than a closing parenthesis, then a closing
parenthesis; returns the content. -/
def matchParenTime (l : List Char) : Option (List Char) :=
  match l with
  | '(' :: rest =>
      let content := rest.takeWhile (fun c => !(c == ')'))
      if content.isEmpty then none
      else
        match rest.dropWhile (fun c => !(c == ')')) with
        | ')' :: _ => some content
        | _ => none
  | _ => none

/-- Tail of the from-to branch: whitespace, the word to, whitespace, then
at least one character other than a comma; returns the final group. -/
def checkFromTail (rest : List Char) : Option (List Char) :=
  let ws := rest.takeWhile isJsWS
  if ws.isEmpty then none
  else
    match matchKeyword (("to").toList) (rest.dropWhile isJsWS) with
    | none => none
    | some (_, r3) =>
        let ws2 := r3.takeWhile isJsWS
        if ws2.isEmpty then none
        else
          let g := (r3.dropWhile isJsWS).takeWhile (fun c => !(c == ','))
          if g.isEmpty then none else some g

/-- Backtracking over the greedy character-class span of the from-to
branch: try the prefix of the span of each length, longest first. -/
def fromBack (span r1 : List Char) : Nat → Option (List Char × List Char)
  | 0 => none
  | k + 1 =>
      match checkFromTail (r1.drop (k + 1)) with
      | some g5 => some (span.take (k + 1), g5)
      | none => fromBack span r1 k

/-- From-to branch of the activity-with-time pattern: the word from,
whitespace, a nonempty span excluding the letters t and o, whitespace,
the word to, whitespace and a nonempty comma-free group. -/
def matchFromTo (l : List Char) : Option (List Char × List Char) :=
  match matchKeyword (("from").toList) l with
  | none => none
  | some (_, r) =>
      let ws := r.takeWhile isJsWS
      if ws.isEmpty then none
      else
        let r1 := r.dropWhile isJsWS
        let span := r1.takeWhile (fun c => !(c.toLower == 't' || c.toLower == 'o'))
        if span.isEmpty then none
        else fromBack span r1 span.length

/-- Bullet marker used by formatMessage. -/
def bulletPre : List Char := ("  • ").toList

/-- Bullet with an optional appended time range in parentheses. -/
def mkTimeBullet (act timeRange : List Char) : List Char :=
  bulletPre ++ act ++
    (if timeRange.isEmpty then [] else (" (").toList ++ timeRange ++ [')'])

/-- Lazy search of the activity-with-time pattern: shortest nonempty
activity prefix after which, past whitespace, the parenthesised branch or
the from-to branch matches; produces the pushed bullet line. -/
def actSearchFrom (rest : List Char) : Nat → Nat → Option (List Char)
  | _, 0 => none
  | n, fuel + 1 =>
      if n > rest.length then none
      else
        let act := rest.take n
        let after := (rest.drop n).dropWhile isJsWS
        match matchParenTime after with
        | some g3 => some (mkTimeBullet (jsTrim act) g3)
        | none =>
            match matchFromTo after with
            | some g =>
                some (mkTimeBullet (jsTrim act)
                  (jsTrim g.1 ++ (" - ").toList ++ jsTrim g.2))
            | none => actSearchFrom rest (n + 1) fuel

/-- Activity-with-time pattern of formatMessage: an activity verb,
whitespace, then the lazy search above. -/
def matchActivityWithTime (l : List Char) : Option (List Char) :=
  match matchVerb l with
  | none => none
  | some (_, r0) =>
      let ws := r0.takeWhile isJsWS
      if ws.isEmpty then none
      else
        let rest := r0.dropWhile isJsWS
        actSearchFrom rest 1 (rest.length + 1)

/-- Plain activity-verb line: a verb followed by whitespace. -/
def startsWithVerbWs (l : List Char) : Bool :=
  match matchVerb l with
  | some (_, r) => !(r.takeWhile isJsWS).isEmpty
  | none => false

/-- Numbered list item: digits, a period or closing parenthesis,
whitespace, and a nonempty rest. -/
def matchNumbered (l : List Char) : Option (List Char) :=
  let ds := l.takeWhile (fun c => c.isDigit)
  if ds.isEmpty then none
  else
    match l.drop ds.length with
    | c :: t =>
        if c == '.' || c == ')' then
          let rest := t.dropWhile isJsWS
          if rest.isEmpty then none else some rest
        else none
    | [] => none

/-- Lazy search of the simple-activity pattern: shortest nonempty prefix
after which, past whitespace, the line ends in a parenthesised nonempty
group. -/
def simpleSearchFrom (l : List Char) : Nat → Nat → Option (List Char × List Char)
  | _, 0 => none
  | n, fuel + 1 =>
      if n > l.length then none
      else
        let act := l.take n
        let after := (l.drop n).dropWhile isJsWS
        match after with
        | '(' :: rest =>
            if rest.getLast? == some ')' && !rest.dropLast.isEmpty &&
                rest.dropLast.all (fun c => !(c == ')')) then
              some (act, rest.dropLast)
            else simpleSearchFrom l (n + 1) fuel
        | _ => simpleSearchFrom l (n + 1) fuel

/-- Simple-activity pattern of formatMessage: a name followed by a
parenthesised group at the end of the line. -/
def matchSimpleActivity (l : List Char) : Option (List Char × List Char) :=
  simpleSearchFrom l 1 (l.length + 1)

/-- Time-of-day pattern at the head of a list: digits, a colon, digits,
whitespace, then am or pm in any case. -/
def timeAt (l : List Char) : Bool :=
  let ds := l.takeWhile (fun c => c.isDigit)
  if ds.isEmpty then false
  else
    match l.drop ds.length with
    | ':' :: r =>
        let ds2 := r.takeWhile (fun c => c.isDigit)
        if ds2.isEmpty then false
        else
          let r2 := (r.drop ds2.length).dropWhile isJsWS
          ciStartsWith (("am").toList) r2 || ciStartsWith (("pm").toList) r2
    | _ => false

/-- Search for the time-of-day pattern anywhere in the list. -/
def hasTimeRange : List Char → Bool
  | [] => false
  | c :: cs => timeAt (c :: cs) || hasTimeRange cs

/-- Removal of a leading dash list marker (a dash followed by
whitespace). -/
def stripDashStart (l : List Char) : List Char :=
  match l with
  | '-' :: c :: rest => if isJsWS c then (c :: rest).dropWhile isJsWS else l
  | _ => l

/-- Day header as pushed: label wrapped in double asterisks. -/
def dayBold (d : List Char) : List Char :=
  ("**").toList ++ d ++ ("**").toList

/-- Period header as pushed: label wrapped in single asterisks. -/
def periodStar (p : List Char) : List Char :=
  '*' :: (p ++ ['*'])

/-- Line-processing loop of formatMessage (voice-frontend
src/utils/formatMessage.ts): each raw line is trimmed, empty lines
before any output are skipped, a leading dash marker is removed, and the
line is classified as day header, period header (with activity
splitting), activity with time range, verb-led activity, numbered item,
simple activity inside a day, or kept as is when nonempty. -/
def processLines : Option (List Char) → List (List Char) → List (List Char) →
    List (List Char)
  | _, acc, [] => acc
  | curDay, acc, raw :: rest =>
      let line0 := jsTrim raw
      if line0.isEmpty && acc.isEmpty then processLines curDay acc rest
      else
        let line := stripDashStart line0
        match matchDay line with
        | some (g1, g2) =>
            let acc1 := if curDay.isSome then acc ++ [([] : List Char)] else acc
            let acc2 := acc1 ++ [dayBold g1] ++ (if g2.isEmpty then [] else [g2])
            processLines (some g1) acc2 rest
        | none =>
            match matchPeriod line with
            | some (p, r) =>
                let bullets :=
                  if r.isEmpty then []
                  else (((splitActivities r).map jsTrim).filter
                      (fun a => !a.isEmpty)).map (fun a => bulletPre ++ a)
                processLines curDay (acc ++ [periodStar p] ++ bullets) rest
            | none =>
                match matchActivityWithTime line with
                | some b => processLines curDay (acc ++ [b]) rest
                | none =>
                    if startsWithVerbWs line then
                      processLines curDay (acc ++ [bulletPre ++ line]) rest
                    else
                      match matchNumbered line with
                      | some r => processLines curDay (acc ++ [bulletPre ++ r]) rest
                      | none =>
                          match (if curDay.isSome then matchSimpleActivity line
                              else none) with
                          | some g =>
                              let a := jsTrim g.1
                              let t := jsTrim g.2
                              if hasTimeRange t then
                                processLines curDay (acc ++ [mkTimeBullet a t]) rest
                              else if !line.isEmpty then
                                processLines curDay (acc ++ [line]) rest
                              else processLines curDay acc rest
                          | none =>
                              if !line.isEmpty then
                                processLines curDay (acc ++ [line]) rest
                              else processLines curDay acc rest

/-- Per-line removal of a remaining dash list marker (a dash and a space
at the start of a line), the first global replace of formatMessage. -/
def stripDashLines (l : List Char) : List Char :=
  joinNl ((splitOnNl l).map (fun line =>
    match line with
    | '-' :: ' ' :: rest => rest
    | _ => line))

/-- Collapse of newline runs, the second global replace of formatMessage:
k counts the newlines of the current run already emitted, and a run never
emits more than two. -/
def collapseNl : Nat → List Char → List Char
  | _, [] => []
  | k, c :: cs =>
      if c = nl then
        (if 2 ≤ k then collapseNl k cs else nl :: collapseNl (k + 1) cs)
      else c :: collapseNl 0 cs

/-- formatMessage from voice-frontend src/utils/formatMessage.ts: the
empty input is returned as is; otherwise the lines are processed, joined,
dash markers removed, newline runs collapsed to at most two, and the
result trimmed. -/
def formatMessage (text : List Char) : List Char :=
  if text.isEmpty then text
  else
    let formatted := joinNl (processLines none [] (splitOnNl text))
    jsTrim (collapseNl 0 (stripDashLines formatted))

/-- Bound check on newline runs: with k newlines already seen right
before the list, no run of the list extends past two. -/
def runBound : Nat → List Char → Bool
  | _, [] => true
  | k, c :: cs =>
      if c = nl then decide (k + 1 ≤ 2) && runBound (k + 1) cs
      else runBound 0 cs

end Fmt

/- Theorems. The claim theorems are named claimN with a descriptive
suffix; general-purpose lemmas come first. -/

/-- Claim C1: when the backend call of a turn fails entirely, the
stop-and-process handler appends exactly the fixed apology text to the
transcript and leaves the itinerary, the sources and the session id
exactly as they were before the turn. -/
theorem claim1_provider_failure_keeps_state (s : VoiceFrontend.AppState) :
    (VoiceFrontend.handleVoiceTurnStop s VoiceFrontend.TurnOutcome.failure).transcript
        = s.transcript ++
          [{ type := VoiceFrontend.MsgType.assistant,
             text := VoiceFrontend.apologyText }] ∧
    (VoiceFrontend.handleVoiceTurnStop s VoiceFrontend.TurnOutcome.failure).itinerary
        = s.itinerary ∧
    (VoiceFrontend.handleVoiceTurnStop s VoiceFrontend.TurnOutcome.failure).sources
        = s.sources ∧
    (VoiceFrontend.handleVoiceTurnStop s VoiceFrontend.TurnOutcome.failure).sessionId
        = s.sessionId :=
  ⟨rfl, rfl, rfl, rfl⟩

/-- Claim C2: on a completed turn whose response carries an itinerary the
stored itinerary is replaced wholesale by it, and on a completed turn
whose response carries none the stored itinerary is unchanged. -/
theorem claim2_itinerary_replaced_wholesale (s : ChatFrontend.ChatState)
    (content : String) (data : ChatFrontend.ApiResponse)
    (hs : data.status = "success") :
    (∀ it, data.itinerary = some it →
      (ChatFrontend.sendMessageUpdate s content
        (ChatFrontend.FetchOutcome.ok data)).itinerary = some it) ∧
    (data.itinerary = none →
      (ChatFrontend.sendMessageUpdate s content
        (ChatFrontend.FetchOutcome.ok data)).itinerary = s.itinerary) := by
  constructor
  · intro it hit
    unfold ChatFrontend.sendMessageUpdate
    simp [hs, hit]
    cases hsrc : data.sources <;> split <;> rfl
  · intro hnone
    unfold ChatFrontend.sendMessageUpdate
    simp [hs, hnone]
    cases hsrc : data.sources <;> split <;> rfl

/-- Witness for claim C2 at a concrete response. -/
theorem claim2_witness :
    ChatFrontend.sampleResponse.status = "success" ∧
    (ChatFrontend.sendMessageUpdate
        { messages := [], itinerary := none, sources := [], sessionId := none }
        "plan a trip"
        (ChatFrontend.FetchOutcome.ok ChatFrontend.sampleResponse)).itinerary
      = some { day_1 := some ChatFrontend.sampleDay } :=
  ⟨rfl,
    (claim2_itinerary_replaced_wholesale _ _ _ rfl).1
      { day_1 := some ChatFrontend.sampleDay } rfl⟩

/-- Claim C4 (builder modelled from the spec): build is deterministic,
identical inputs give identical itineraries. -/
theorem claim4_build_deterministic (p1 p2 : List Builder.POI) (d1 d2 : Nat)
    (pa1 pa2 : Builder.Pace) (t1 t2 : Nat)
    (hp : p1 = p2) (hd : d1 = d2) (hpa : pa1 = pa2) (ht : t1 = t2) :
    Builder.build p1 d1 pa1 t1 = Builder.build p2 d2 pa2 t2 := by
  subst hp; subst hd; subst hpa; subst ht; rfl

/-- Witness for claim C4 at a concrete input. -/
theorem claim4_witness :
    Builder.build Builder.samplePOIs 2 Builder.Pace.relaxed 540
      = Builder.build Builder.samplePOIs 2 Builder.Pace.relaxed 540 :=
  claim4_build_deterministic _ _ _ _ _ _ _ _ rfl rfl rfl rfl

/-- Counterexample to claim C5 as stated: a response whose X-Session-Id
header is present with the empty value does not round-trip that header
value; the code falls back to the caller-supplied id. -/
theorem claim5_counterexample :
    Api.newSessionId (some ("")) (some ("abc")) = "abc" ∧
      ("abc" : String) ≠ "" := by
  constructor
  · rfl
  · decide

/-- Claim C5 as amended: the returned session id equals the X-Session-Id
header value when that header is present and non-empty; otherwise it
equals the caller-supplied session id when that is supplied and
non-empty; otherwise it is the empty string. -/
theorem claim5_session_id_amended (hdr sid : Option String) :
    (∀ h, hdr = some h → h ≠ "" → Api.newSessionId hdr sid = h) ∧
    (Api.jsTruthy hdr = false →
      ∀ s, sid = some s → s ≠ "" → Api.newSessionId hdr sid = s) ∧
    (Api.jsTruthy hdr = false → Api.jsTruthy sid = false →
      Api.newSessionId hdr sid = "") := by
  refine ⟨?_, ?_, ?_⟩
  · intro h hh hne
    subst hh
    unfold Api.newSessionId
    rw [if_pos (by simp [Api.jsTruthy, hne])]
    rfl
  · intro hf s hs hne
    subst hs
    unfold Api.newSessionId
    rw [if_neg (by simp [hf]), if_pos (by simp [Api.jsTruthy, hne])]
    rfl
  · intro hf1 hf2
    unfold Api.newSessionId
    rw [if_neg (by simp [hf1]), if_neg (by simp [hf2])]

/-- Witness for claim C5 (amended) at concrete header values. -/
theorem claim5_witness : Api.newSessionId (some ("x")) (some ("y")) = "x" :=
  (claim5_session_id_amended (some ("x")) (some ("y"))).1 "x" rfl (by decide)

/-- Claim C9: when the X-Encoding header is not exactly base64, the
decoded sources list is empty even if an X-Sources header is present. -/
theorem claim9_sources_only_base64 (atob : String → Option String)
    (parseSources : String → Option (List VoiceFrontend.Source))
    (h : Api.VoiceChatHeaders) (sid : Option String)
    (henc : h.xEncoding ≠ some ("base64")) :
    (Api.decodeVoiceResponse atob parseSources h sid).sources = [] := by
  unfold Api.decodeVoiceResponse
  simp [henc]

/-- Witness for claim C9 at a concrete non-base64 response. -/
theorem claim9_witness :
    (({ xEncoding := some ("plain"), xSources := some ("enc") } :
        Api.VoiceChatHeaders).xEncoding ≠ some ("base64")) ∧
    (Api.decodeVoiceResponse (fun _ => none) (fun _ => none)
        { xEncoding := some ("plain"), xSources := some ("enc") } none).sources
      = [] :=
  ⟨by decide, claim9_sources_only_base64 _ _ _ _ (by decide)⟩

/-- Counterexample to claim C10 as stated: after a startRecording call in
which getUserMedia succeeded but the MediaRecorder constructor threw,
stopRecording rejects without releasing the stream the recorder still
holds, so the recorder is not back in the idle state. -/
theorem claim10_counterexample :
    (Recorder.stopRecording
        (Recorder.startRecording Recorder.initial
          (Recorder.StartEnv.ctorThrows 0)).1
        Recorder.StopEnv.onstopFires).2 = Recorder.CallResult.threw ∧
    (Recorder.stopRecording
        (Recorder.startRecording Recorder.initial
          (Recorder.StartEnv.ctorThrows 0)).1
        Recorder.StopEnv.onstopFires).1.stream = some 0 :=
  ⟨rfl, rfl⟩

/-- Claim C10 as amended: after stopRecording settles from a state that
held a recorder, and after cancelRecording from any state, the recorder
is idle (not recording, stream released, recorder reference null); a
stopRecording call with no recorder rejects and leaves the fields
untouched, so a stream acquired by a failed startRecording stays held. -/
theorem claim10_recorder_idle_amended :
    (∀ s env, s.mediaRecorder.isSome →
      Recorder.idle (Recorder.stopRecording s env).1) ∧
    (∀ s, Recorder.idle (Recorder.cancelRecording s)) ∧
    (∀ s env, s.mediaRecorder = none →
      Recorder.stopRecording s env = (s, Recorder.CallResult.threw)) := by
  have hclean : ∀ s, Recorder.idle (Recorder.cleanup s) := by
    intro s
    rcases s with ⟨mr, st, ch, tr⟩
    cases st <;>
      simp [Recorder.cleanup, Recorder.idle, Recorder.isRecording]
  refine ⟨?_, ?_, ?_⟩
  · intro s env hrec
    rcases hmr : s.mediaRecorder with _ | mr
    · rw [hmr] at hrec; cases hrec
    · cases env <;>
        simp [Recorder.stopRecording, hmr] <;> exact hclean s
  · intro s
    exact hclean s
  · intro s env hmr
    cases env <;> simp [Recorder.stopRecording, hmr]

/-- Witness for claim C10 (amended) at a concrete recording state. -/
theorem claim10_witness :
    Recorder.idle
      (Recorder.stopRecording
        { mediaRecorder := some Recorder.MRState.recording, stream := some 5,
          audioChunks := 0, stoppedTracks := [] }
        Recorder.StopEnv.onstopFires).1 :=
  claim10_recorder_idle_amended.1 _ Recorder.StopEnv.onstopFires rfl

/-- Counterexample to claim C3 as stated: the voice-frontend Itinerary
type populates at most three day slots, and even with every slot present
the caller is offered only days one to three, so an itinerary of seven
days is not representable or presentable. -/
theorem claim3_counterexample :
    VoiceFrontend.getAvailableDays (some VoiceFrontend.fullItinerary) = [1, 2, 3] ∧
    ¬ (7 ∈ VoiceFrontend.getAvailableDays (some VoiceFrontend.fullItinerary)) ∧
    VoiceFrontend.numDays VoiceFrontend.fullItinerary = 3 := by
  decide

/-- Claim C3 as amended: the spec-modelled builder produces exactly
duration_days Day entries for every valid input with duration_days in
1..7 (and succeeds whenever enough candidates are supplied), but the
voice-frontend Itinerary type populates at most three day slots and
getAvailableDays only ever presents days one to three, so only
itineraries of up to three days are representable and presentable to the
caller. -/
theorem claim3_days_amended :
    (∀ pois d pace t it, Builder.build pois d pace t = Except.ok it →
        it.days.length = d) ∧
    (∀ pois d pace t, 1 ≤ d → d ≤ 7 →
        d * Builder.paceMin pace ≤ pois.length →
        ∃ it, Builder.build pois d pace t = Except.ok it) ∧
    (∀ it : VoiceFrontend.Itinerary, VoiceFrontend.numDays it ≤ 3) ∧
    (∀ itOpt d, d ∈ VoiceFrontend.getAvailableDays itOpt → d ≤ 3) := by
  refine ⟨?_, ?_, ?_, ?_⟩
  · intro pois d pace t it h
    unfold Builder.build at h
    split at h
    · split at h
      · simp at h
      · simp at h
        rw [← h]
        simp
    · simp at h
  · intro pois d pace t h1 h2 h3
    unfold Builder.build
    rw [if_pos ⟨h1, h2⟩, if_neg (Nat.not_lt.mpr h3)]
    exact ⟨_, rfl⟩
  · intro it
    rcases it with ⟨d1, d2, d3⟩
    cases d1 <;> cases d2 <;> cases d3 <;> simp [VoiceFrontend.numDays]
  · intro itOpt d hd
    rcases itOpt with _ | it
    · simp [VoiceFrontend.getAvailableDays] at hd
      omega
    · rcases it with ⟨d1, d2, d3⟩
      cases d1 <;> cases d2 <;> cases d3 <;>
        simp [VoiceFrontend.getAvailableDays] at hd <;>
        omega

/-- Witness for claim C3 (amended) at a concrete valid input. -/
theorem claim3_witness :
    ∃ it, Builder.build Builder.samplePOIs 2 Builder.Pace.relaxed 540
      = Except.ok it :=
  claim3_days_amended.2.1 Builder.samplePOIs 2 Builder.Pace.relaxed 540
    (by decide) (by decide) (by decide)

/-- Claim C6: a travel badge is never rendered for the first activity of
a day, every rendered travel badge is strictly positive (hence
nonnegative) and shows exactly the travel_from_previous attached to the
activity it precedes, and in the mock itinerary every attached travel
value is nonnegative. -/
theorem claim6_travel_time_invariant :
    (∀ d slot idx a, ChatFrontend.isFirstOfDay d slot idx →
        ChatFrontend.renderedTravel d slot idx a = none) ∧
    (∀ d slot idx a t, ChatFrontend.renderedTravel d slot idx a = some t →
        0 < t ∧ a.travel_from_previous = some t) ∧
    (∀ t, t ∈ ChatFrontend.allTravelValues ChatFrontend.mockItinerary →
        0 ≤ t) := by
  refine ⟨?_, ?_, ?_⟩
  · intro d slot idx a hfirst
    obtain ⟨h0, hs⟩ := hfirst
    subst h0
    cases slot
    · simp [ChatFrontend.renderedTravel, ChatFrontend.showTravelTime]
    · simp [ChatFrontend.renderedTravel, ChatFrontend.showTravelTime, hs]
    · obtain ⟨hm, ha⟩ := hs
      simp [ChatFrontend.renderedTravel, ChatFrontend.showTravelTime, hm, ha]
  · intro d slot idx a t h
    rcases htr : a.travel_from_previous with _ | tv
    · simp [ChatFrontend.renderedTravel, htr] at h
    · simp only [ChatFrontend.renderedTravel, htr] at h
      split at h
      · split at h
        · injection h with ht
          subst ht
          exact ⟨by assumption, rfl⟩
        · exact absurd h (by simp)
      · exact absurd h (by simp)
  · intro t ht
    have hvals : ChatFrontend.allTravelValues ChatFrontend.mockItinerary
        = [0, 30, 20, 0, 5] := rfl
    rw [hvals] at ht
    simp at ht
    omega

/-- Witness for claim C6 at a concrete first-of-day position. -/
theorem claim6_witness :
    ChatFrontend.renderedTravel
      { morning := [], afternoon := [], evening := [] }
      ChatFrontend.TimeSlot.morning 0
      { activity_id := "a1", name := "Amber Fort", start_time := "09:00",
        end_time := "10:00", duration_minutes := 60,
        travel_from_previous := some 25 } = none :=
  claim6_travel_time_invariant.1 _ _ _ _ ⟨rfl, trivial⟩

/-- Appending citations only ever extends the list on the right. -/
theorem appendCitations_suffix (newOnes : List SessionModel.Citation) :
    ∀ existing, ∃ s,
      SessionModel.appendCitations existing newOnes = existing ++ s := by
  induction newOnes with
  | nil =>
      intro existing
      exact ⟨[], by simp [SessionModel.appendCitations]⟩
  | cons c newOnes ih =>
      intro existing
      have hstep : SessionModel.appendCitations existing (c :: newOnes) =
          SessionModel.appendCitations
            (if existing.any (fun d => d.url == c.url) then existing
              else existing ++ [c]) newOnes := rfl
      rw [hstep]
      by_cases hdup : existing.any (fun d => d.url == c.url) = true
      · rw [if_pos hdup]
        exact ih existing
      · rw [if_neg hdup]
        obtain ⟨s, hs⟩ := ih (existing ++ [c])
        exact ⟨c :: s, by rw [hs]; simp⟩

/-- Appending citations preserves distinctness of the URLs. -/
theorem appendCitations_distinct (newOnes : List SessionModel.Citation) :
    ∀ existing, SessionModel.urlsDistinct existing →
      SessionModel.urlsDistinct (SessionModel.appendCitations existing newOnes) := by
  induction newOnes with
  | nil =>
      intro existing h
      simpa [SessionModel.appendCitations] using h
  | cons c newOnes ih =>
      intro existing h
      have hstep : SessionModel.appendCitations existing (c :: newOnes) =
          SessionModel.appendCitations
            (if existing.any (fun d => d.url == c.url) then existing
              else existing ++ [c]) newOnes := rfl
      rw [hstep]
      by_cases hdup : existing.any (fun d => d.url == c.url) = true
      · rw [if_pos hdup]
        exact ih existing h
      · rw [if_neg hdup]
        refine ih (existing ++ [c]) ?_
        unfold SessionModel.urlsDistinct at h ⊢
        rw [List.pairwise_append]
        refine ⟨h, List.pairwise_singleton _ _, ?_⟩
        intro a ha b hb
        simp only [List.mem_singleton] at hb
        subst hb
        intro hurl
        apply hdup
        rw [List.any_eq_true]
        exact ⟨a, ha, by simp [hurl]⟩

/-- Claim C7 (session store modelled from the spec): citation
accumulation is append-only (the prior list is a left part of the new
list, so every previously accumulated citation remains) and keeps URLs
pairwise distinct. -/
theorem claim7_citations_append_dedup
    (existing newOnes : List SessionModel.Citation)
    (h : SessionModel.urlsDistinct existing) :
    (SessionModel.appendCitations existing newOnes).take existing.length
        = existing ∧
    (∀ c ∈ existing, c ∈ SessionModel.appendCitations existing newOnes) ∧
    SessionModel.urlsDistinct (SessionModel.appendCitations existing newOnes) := by
  obtain ⟨s, hs⟩ := appendCitations_suffix newOnes existing
  refine ⟨?_, ?_, appendCitations_distinct newOnes existing h⟩
  · rw [hs]
    simp
  · intro c hc
    rw [hs]
    exact List.mem_append_left _ hc

/-- Witness for claim C7 at a concrete session. -/
theorem claim7_witness :
    SessionModel.urlsDistinct
      (SessionModel.appendCitations
        [{ url := "https://en.wikivoyage.org/wiki/Jaipur", source := "Wikivoyage" }]
        [{ url := "https://en.wikivoyage.org/wiki/Jaipur", source := "Wikivoyage" },
          { url := "https://www.openstreetmap.org/node/12345",
            source := "OpenStreetMap" }]) :=
  (claim7_citations_append_dedup _ _
    (by simp [SessionModel.urlsDistinct])).2.2

/-- The head of a dropWhile result does not satisfy the dropped
predicate. -/
theorem head_dropWhile_false (p : Char → Bool) :
    ∀ (l : List Char) (c : Char), (l.dropWhile p).head? = some c → p c = false := by
  intro l
  induction l with
  | nil => intro c h; simp at h
  | cons a l ih =>
      intro c h
      by_cases hp : p a = true
      · rw [List.dropWhile_cons_of_pos hp] at h
        exact ih c h
      · rw [List.dropWhile_cons_of_neg hp] at h
        simp only [List.head?_cons, Option.some.injEq] at h
        subst h
        exact Bool.not_eq_true _ ▸ (by simpa using hp)

/-- The whitespace-dropped list is the trimmed list followed by the
trailing whitespace. -/
theorem dropWhile_eq_trim_append (l : List Char) :
    ∃ s, l.dropWhile Fmt.isJsWS = Fmt.jsTrim l ++ s := by
  refine ⟨((l.dropWhile Fmt.isJsWS).reverse.takeWhile Fmt.isJsWS).reverse, ?_⟩
  unfold Fmt.jsTrim Fmt.dropTrailingWS
  calc l.dropWhile Fmt.isJsWS
      = (l.dropWhile Fmt.isJsWS).reverse.reverse := (List.reverse_reverse _).symm
    _ = ((l.dropWhile Fmt.isJsWS).reverse.takeWhile Fmt.isJsWS ++
          (l.dropWhile Fmt.isJsWS).reverse.dropWhile Fmt.isJsWS).reverse := by
        rw [List.takeWhile_append_dropWhile]
    _ = ((l.dropWhile Fmt.isJsWS).reverse.dropWhile Fmt.isJsWS).reverse ++
          ((l.dropWhile Fmt.isJsWS).reverse.takeWhile Fmt.isJsWS).reverse := by
        rw [List.reverse_append]

/-- Every list is its trimmed core surrounded by the stripped ends. -/
theorem jsTrim_decomp (l : List Char) :
    ∃ pre post, l = pre ++ Fmt.jsTrim l ++ post := by
  obtain ⟨s, hs⟩ := dropWhile_eq_trim_append l
  refine ⟨l.takeWhile Fmt.isJsWS, s, ?_⟩
  conv_lhs => rw [← List.takeWhile_append_dropWhile (p := Fmt.isJsWS) (l := l)]
  rw [hs, List.append_assoc]

/-- The first character of a trimmed list is not whitespace. -/
theorem jsTrim_head_false (l : List Char) (c : Char)
    (h : (Fmt.jsTrim l).head? = some c) : Fmt.isJsWS c = false := by
  obtain ⟨s, hs⟩ := dropWhile_eq_trim_append l
  rcases hJ : Fmt.jsTrim l with _ | ⟨x, xs⟩
  · rw [hJ] at h; simp at h
  · rw [hJ] at h
    simp only [List.head?_cons, Option.some.injEq] at h
    subst h
    have hB : (l.dropWhile Fmt.isJsWS).head? = some x := by
      rw [hs, hJ]; rfl
    exact head_dropWhile_false _ _ _ hB

/-- The last character of a trimmed list is not whitespace. -/
theorem jsTrim_getLast_false (l : List Char) (c : Char)
    (h : (Fmt.jsTrim l).getLast? = some c) : Fmt.isJsWS c = false := by
  unfold Fmt.jsTrim Fmt.dropTrailingWS at h
  rw [List.getLast?_reverse] at h
  exact head_dropWhile_false _ _ _ h

/-- The collapse of newline runs satisfies the run bound. -/
theorem runBound_collapseNl :
    ∀ (cs : List Char) (k : Nat),
      Fmt.runBound (min k 2) (Fmt.collapseNl k cs) = true := by
  intro cs
  induction cs with
  | nil => intro k; rfl
  | cons c cs ih =>
      intro k
      by_cases hc : c = Fmt.nl
      · subst hc
        by_cases hk : 2 ≤ k
        · rw [show Fmt.collapseNl k (Fmt.nl :: cs)
              = Fmt.collapseNl k cs by simp [Fmt.collapseNl, hk]]
          exact ih k
        · have hk2 : k < 2 := Nat.lt_of_not_le hk
          rw [show Fmt.collapseNl k (Fmt.nl :: cs)
              = Fmt.nl :: Fmt.collapseNl (k + 1) cs by simp [Fmt.collapseNl, hk]]
          have hmin : min k 2 = k := Nat.min_eq_left (le_of_lt hk2)
          rw [hmin]
          rw [show Fmt.runBound k (Fmt.nl :: Fmt.collapseNl (k + 1) cs)
              = (decide (k + 1 ≤ 2) && Fmt.runBound (k + 1) (Fmt.collapseNl (k + 1) cs))
              by simp [Fmt.runBound]]
          rw [Bool.and_eq_true]
          constructor
          · exact decide_eq_true (by omega)
          · have h1 := ih (k + 1)
            rwa [Nat.min_eq_left (by omega)] at h1
      · rw [show Fmt.collapseNl k (c :: cs)
            = c :: Fmt.collapseNl 0 cs by simp [Fmt.collapseNl, hc]]
        rw [show Fmt.runBound (min k 2) (c :: Fmt.collapseNl 0 cs)
            = Fmt.runBound 0 (Fmt.collapseNl 0 cs) by simp [Fmt.runBound, hc]]
        have h0 := ih 0
        rwa [Nat.zero_min] at h0

/-- A list within the run bound holds no three consecutive newlines. -/
theorem runBound_no_triple :
    ∀ (l : List Char) (k : Nat), Fmt.runBound k l = true →
      ∀ pre post, l ≠ pre ++ Fmt.nl :: Fmt.nl :: Fmt.nl :: post := by
  intro l
  induction l with
  | nil =>
      intro k h pre post heq
      simp at heq
  | cons c cs ih =>
      intro k h pre post heq
      cases pre with
      | nil =>
          simp only [List.nil_append, List.cons.injEq] at heq
          obtain ⟨hc, hcs⟩ := heq
          subst hc
          subst hcs
          simp [Fmt.runBound] at h
      | cons p pre =>
          simp only [List.cons_append, List.cons.injEq] at heq
          obtain ⟨hc, hcs⟩ := heq
          by_cases hcn : c = Fmt.nl
          · have h2 : Fmt.runBound (k + 1) cs = true := by
              simp [Fmt.runBound, hcn] at h
              exact h.2
            exact ih (k + 1) h2 pre post hcs
          · have h2 : Fmt.runBound 0 cs = true := by
              simpa [Fmt.runBound, hcn] using h
            exact ih 0 h2 pre post hcs

/-- Claim C8: for every input, formatMessage returns a string with no
three consecutive newline characters and with no leading or trailing
whitespace. -/
theorem claim8_format_message_clean (text : List Char) :
    (∀ pre post,
        Fmt.formatMessage text ≠ pre ++ Fmt.nl :: Fmt.nl :: Fmt.nl :: post) ∧
    (∀ c, (Fmt.formatMessage text).head? = some c → Fmt.isJsWS c = false) ∧
    (∀ c, (Fmt.formatMessage text).getLast? = some c → Fmt.isJsWS c = false) := by
  by_cases hempty : text.isEmpty
  · have htext : text = [] := by
      cases text
      · rfl
      · simp [List.isEmpty] at hempty
    have hfm : Fmt.formatMessage text = [] := by
      unfold Fmt.formatMessage
      rw [if_pos hempty]
      exact htext
    refine ⟨?_, ?_, ?_⟩
    · intro pre post heq
      rw [hfm] at heq
      simp at heq
    · intro c h
      rw [hfm] at h
      simp at h
    · intro c h
      rw [hfm] at h
      simp at h
  · have hfm : Fmt.formatMessage text =
        Fmt.jsTrim (Fmt.collapseNl 0 (Fmt.stripDashLines
          (Fmt.joinNl (Fmt.processLines none [] (Fmt.splitOnNl text))))) := by
      unfold Fmt.formatMessage
      rw [if_neg hempty]
    refine ⟨?_, ?_, ?_⟩
    · intro pre post heq
      rw [hfm] at heq
      obtain ⟨p1, p2, hdecomp⟩ :=
        jsTrim_decomp (Fmt.collapseNl 0 (Fmt.stripDashLines
          (Fmt.joinNl (Fmt.processLines none [] (Fmt.splitOnNl text)))))
      rw [heq] at hdecomp
      have hb := runBound_collapseNl
        (Fmt.stripDashLines
          (Fmt.joinNl (Fmt.processLines none [] (Fmt.splitOnNl text)))) 0
      rw [Nat.zero_min] at hb
      refine runBound_no_triple _ 0 hb (p1 ++ pre) (post ++ p2) ?_
      rw [hdecomp]
      simp
    · intro c h
      rw [hfm] at h
      exact jsTrim_head_false _ _ h
    · intro c h
      rw [hfm] at h
      exact jsTrim_getLast_false _ _ h

/-- Witness for claim C8 at a concrete message. -/
theorem claim8_witness : Fmt.isJsWS 'h' = false :=
  (claim8_format_message_clean (("hi").toList)).2.1 'h' (by rfl)

end TravelPlanner
